import Mathlib

/-!
Verification of the RFID access-control tag-event processing engine.

Shallow embedding of the Python sources:
* `src/rfid_reader.py` — the hardware reader: global caches, presence
  registry, session stats, the per-read handlers, `process_rfid_tag`,
  and the debounce logic inside `run`.
* `src/test_simulator.py` — the simulator's `simulate_read`, which
  duplicates the classification logic.

Modelling conventions: wall-clock timestamps are integers (seconds);
every function that reads `datetime.now()` / `time.time()` in Python
takes the current time as an explicit parameter.  Python dicts become
association lists with dict-like update semantics (update in place for
an existing key, append for a new one).  The network fetch inside
`update_cache` becomes an `Option Cache` oracle parameter: `some m` is
an HTTP-200 response with body `m`, `none` is a request failure or a
non-200 status.  The unguarded dict accesses of `handle_exit` (which
would raise `KeyError` in Python) are modelled as `Option`-returning
lookups, `none` standing for the raised exception.
-/

namespace RFIDModel

/-- Association-list lookup with Python-dict semantics (`m[k]` / `m.get(k)`). -/
def lookupA {α : Type} : List (String × α) → String → Option α
  | [], _ => none
  | (k', v') :: rest, k => if k' = k then some v' else lookupA rest k

/-- Association-list update with Python-dict semantics: an existing key is
updated in place, a new key is appended at the end. -/
def insertA {α : Type} : List (String × α) → String → α → List (String × α)
  | [], k, v => [(k, v)]
  | (k', v') :: rest, k, v =>
      if k' = k then (k, v) :: rest else (k', v') :: insertA rest k v

/-- One collaborator record from the API snapshot: `{'name': …, 'has_access': …}`. -/
structure Collaborator where
  name : String
  has_access : Bool
deriving DecidableEq

/-- The `collaborators_cache` mapping: tag → collaborator. -/
abbrev Cache := List (String × Collaborator)

/-- One record of `presence_control`:
`{'name': str, 'entry_time': datetime, 'is_inside': bool}`. -/
structure PresenceEntry where
  name : String
  entry_time : Int
  is_inside : Bool
deriving DecidableEq

/-- The `session_stats` global dict of `rfid_reader.py` (lines 29–33). -/
structure SessionStats where
  access_attempts : List (String × Nat)
  invasion_attempts : Nat
  time_in_room : List (String × Int)
deriving DecidableEq

/-- The mutable module-level state of `rfid_reader.py`, plus the local
debounce variables of `run` (`last_tag`, `last_read_time`). -/
structure ReaderState where
  collaborators_cache : Cache
  cache_last_update : Option Int
  presence_control : List (String × PresenceEntry)
  session_stats : SessionStats
  last_tag : Option String
  last_read_time : Option Int
deriving DecidableEq

/-- `CACHE_REFRESH_INTERVAL = 300` seconds. -/
def CACHE_REFRESH_INTERVAL : Int := 300

/-- `DEBOUNCE_TIME = 3` seconds. -/
def DEBOUNCE_TIME : Int := 3

/-- The four event kinds logged by the reader (`event_type` strings
`'entry'`, `'exit'`, `'denied'`, `'unknown'`) and returned by the
simulator's `simulate_read`. -/
inductive EventKind where
  | entry
  | exit
  | denied
  | unknown
deriving DecidableEq

/-- `update_cache` (lines 69–85): `fetch = some m` models an HTTP-200
response carrying `m`; `none` models a `RequestException` or non-200
status.  On success the snapshot is replaced wholesale and
`cache_last_update` is set to the current time; otherwise the call
returns `False` and touches nothing. -/
def update_cache (fetch : Option Cache) (s : ReaderState) (now : Int) :
    Bool × ReaderState :=
  match fetch with
  | some m =>
      (true, { s with collaborators_cache := m, cache_last_update := some now })
  | none => (false, s)

/-- `should_refresh_cache` (lines 87–93): true when no snapshot was ever
fetched, or when the elapsed time reaches the TTL. -/
def should_refresh_cache (s : ReaderState) (now : Int) : Bool :=
  match s.cache_last_update with
  | none => true
  | some t => CACHE_REFRESH_INTERVAL ≤ now - t

/-- `handle_entry` (lines 108–122): overwrites the tag's presence record
with a fresh one (`is_inside = True`, `entry_time = now`). -/
def handle_entry (s : ReaderState) (rfid_tag nm : String) (now : Int) :
    ReaderState :=
  { s with presence_control :=
      insertA s.presence_control rfid_tag ⟨nm, now, true⟩ }

/-- `handle_exit` (lines 124–144): reads `presence_control[tag]['entry_time']`
(an unguarded dict access — `none` models the `KeyError`), accumulates
`exit_time - entry_time` into `time_in_room[name]`, and clears
`is_inside`. -/
def handle_exit (s : ReaderState) (rfid_tag nm : String) (now : Int) :
    Option ReaderState :=
  match lookupA s.presence_control rfid_tag with
  | none => none
  | some e =>
      let duration : Int := now - e.entry_time
      let prev : Int := (lookupA s.session_stats.time_in_room nm).getD 0
      some { s with
        session_stats := { s.session_stats with
          time_in_room :=
            insertA s.session_stats.time_in_room nm (prev + duration) },
        presence_control :=
          insertA s.presence_control rfid_tag { e with is_inside := false } }

/-- `handle_denied_access` (lines 146–155): bumps
`session_stats['access_attempts'][name]`, initialising it to 0 first. -/
def handle_denied_access (s : ReaderState) (nm : String) : ReaderState :=
  { s with session_stats := { s.session_stats with
      access_attempts :=
        insertA s.session_stats.access_attempts nm
          ((lookupA s.session_stats.access_attempts nm).getD 0 + 1) } }

/-- `handle_unknown_tag` (lines 157–165): bumps
`session_stats['invasion_attempts']`. -/
def handle_unknown_tag (s : ReaderState) : ReaderState :=
  { s with session_stats := { s.session_stats with
      invasion_attempts := s.session_stats.invasion_attempts + 1 } }

/-- `presence_control.get(rfid_tag, {}).get('is_inside', False)`
(line 188). -/
def presence_is_inside (s : ReaderState) (rfid_tag : String) : Bool :=
  ((lookupA s.presence_control rfid_tag).map (·.is_inside)).getD false

/-- The classification part of `process_rfid_tag` (lines 173–196), i.e.
everything after the cache-refresh step: dispatch on cache membership,
`has_access`, and `is_inside`, producing the logged event kind and the
updated state.  `none` models the `KeyError` a broken invariant would
raise inside `handle_exit`. -/
def classify_and_update (s : ReaderState) (rfid_tag : String) (now : Int) :
    Option (EventKind × ReaderState) :=
  match lookupA s.collaborators_cache rfid_tag with
  | none => some (.unknown, handle_unknown_tag s)
  | some c =>
      if !c.has_access then
        some (.denied, handle_denied_access s c.name)
      else if presence_is_inside s rfid_tag then
        (handle_exit s rfid_tag c.name now).map (fun s' => (.exit, s'))
      else
        some (.entry, handle_entry s rfid_tag c.name now)

/-- `process_rfid_tag` (lines 167–196): first the cache-refresh step
(lines 169–171), then the classification. -/
def process_rfid_tag (fetch : Option Cache) (s : ReaderState)
    (rfid_tag : String) (now : Int) : Option (EventKind × ReaderState) :=
  let s1 := if should_refresh_cache s now then (update_cache fetch s now).2 else s
  classify_and_update s1 rfid_tag now

/-- The debounce test of `run` (lines 273–275):
`last_tag == rfid_tag and last_read_time and (now - last_read_time) < DEBOUNCE_TIME`.
A `last_read_time` of exactly 0 is falsy in Python, hence the `t0 ≠ 0`
conjunct. -/
def debounce_suppress (s : ReaderState) (rfid_tag : String) (now : Int) : Bool :=
  match s.last_tag, s.last_read_time with
  | some lt, some t0 =>
      lt = rfid_tag && !(t0 = 0 : Bool) && (now - t0 < DEBOUNCE_TIME : Bool)
  | _, _ => false

/-- One iteration of the body of `run` (lines 268–281) for a detected tag:
the debounce check, then (for a read that passes) the update of
`last_tag` / `last_read_time` followed by `process_rfid_tag`.  The first
component is `none` when the read was suppressed (no event). -/
def run_step (fetch : Option Cache) (s : ReaderState) (rfid_tag : String)
    (now : Int) : Option (Option EventKind × ReaderState) :=
  if debounce_suppress s rfid_tag now then
    some (none, s)
  else
    let s1 := { s with last_tag := some rfid_tag, last_read_time := some now }
    (process_rfid_tag fetch s1 rfid_tag now).map (fun p => (some p.1, p.2))

/-- A sequence of reads of a single tag at the given times, collecting the
events actually emitted (suppressed reads emit nothing). -/
def run_seq (fetch : Option Cache) (rfid_tag : String) :
    ReaderState → List Int → Option (List EventKind × ReaderState)
  | s, [] => some ([], s)
  | s, t :: ts =>
      match run_step fetch s rfid_tag t with
      | none => none
      | some (ev, s') =>
          match run_seq fetch rfid_tag s' ts with
          | none => none
          | some (ks, s'') => some (ev.toList ++ ks, s'')

/-- A sequence of reads of arbitrary tags, recording per read whether an
event was emitted (`some k`) or the read was debounced (`none`). -/
def run_multi (fetch : Option Cache) :
    ReaderState → List (String × Int) → Option (List (Option EventKind) × ReaderState)
  | s, [] => some ([], s)
  | s, (tg, t) :: rest =>
      match run_step fetch s tg t with
      | none => none
      | some (ev, s') =>
          match run_multi fetch s' rest with
          | none => none
          | some (evs, s'') => some (ev :: evs, s'')

/-- The reader state at interpreter start-up: empty cache, no timestamp,
empty presence registry, zeroed stats, no previous read. -/
def initState : ReaderState :=
  ⟨[], none, [], ⟨[], 0, []⟩, none, none⟩

/-- The simulator's state (`test_simulator.py`): its own collaborator
snapshot and presence registry; it keeps no session stats. -/
structure SimState where
  collaborators : Cache
  presence_control : List (String × PresenceEntry)
deriving DecidableEq

/-- `simulate_read` (test_simulator.py lines 57–109), translated
independently of the reader: same four-way dispatch, same presence
updates, returning the event-kind string. -/
def simulate_read (s : SimState) (rfid_tag : String) (now : Int) :
    Option (EventKind × SimState) :=
  match lookupA s.collaborators rfid_tag with
  | none => some (.unknown, s)
  | some c =>
      if !c.has_access then
        some (.denied, s)
      else if ((lookupA s.presence_control rfid_tag).map (·.is_inside)).getD false then
        match lookupA s.presence_control rfid_tag with
        | none => none
        | some e =>
            let p := insertA s.presence_control rfid_tag { e with is_inside := false }
            some (.exit, { s with presence_control := p })
      else
        let p := insertA s.presence_control rfid_tag ⟨c.name, now, true⟩
        some (.entry, { s with presence_control := p })

/-- Alternating event kinds, starting with `entry` when `b = false`
(the holder is outside) and with `exit` when `b = true`. -/
def altKinds : Bool → Nat → List EventKind
  | _, 0 => []
  | false, n + 1 => .entry :: altKinds true n
  | true, n + 1 => .exit :: altKinds false n

/-- The times in the list are spaced at least `DEBOUNCE_TIME` apart, the
first of them also from the optional previous read time. -/
def spaced3 : Option Int → List Int → Bool
  | _, [] => true
  | none, t :: ts => spaced3 (some t) ts
  | some t0, t :: ts => (t0 + DEBOUNCE_TIME ≤ t : Bool) && spaced3 (some t) ts

/-- Every presence entry recorded for `tg` has its entry time at or before
`now` (holds in any run with a monotone wall clock). -/
def entry_before (s : ReaderState) (tg : String) (now : Int) : Bool :=
  match lookupA s.presence_control tg with
  | none => true
  | some e => decide (e.entry_time ≤ now)

theorem lookupA_insertA_self {α : Type} (m : List (String × α)) (k : String)
    (v : α) : lookupA (insertA m k v) k = some v := by
  induction m with
  | nil => simp [insertA, lookupA]
  | cons hd tl ih =>
      obtain ⟨k', v'⟩ := hd
      by_cases h : k' = k <;> simp [insertA, lookupA, h, ih]

theorem lookupA_insertA_ne {α : Type} (m : List (String × α)) (k k' : String)
    (v : α) (h : k ≠ k') : lookupA (insertA m k v) k' = lookupA m k' := by
  induction m with
  | nil => simp [insertA, lookupA, h]
  | cons hd tl ih =>
      obtain ⟨k0, v0⟩ := hd
      by_cases h0 : k0 = k
      · subst h0
        simp [insertA, lookupA, h]
      · simp [insertA, lookupA, h0, ih]

theorem isSome_lookupA_insertA {α : Type} (m : List (String × α))
    (k k' : String) (v : α) (h : (lookupA m k').isSome = true) :
    (lookupA (insertA m k v) k').isSome = true := by
  by_cases hk : k = k'
  · subst hk
    simp [lookupA_insertA_self]
  · rwa [lookupA_insertA_ne m k k' v hk]

theorem getD_lookupA_insertA_le {α : Type} [Preorder α]
    (m : List (String × α)) (k k' : String) (v d0 : α)
    (h : (lookupA m k).getD d0 ≤ v) :
    (lookupA m k').getD d0 ≤ (lookupA (insertA m k v) k').getD d0 := by
  by_cases hk : k = k'
  · subst hk
    simpa [lookupA_insertA_self] using h
  · rw [lookupA_insertA_ne m k k' v hk]

/-- Claim C2: a read of a tag absent from the current snapshot yields
`unknown` and increments `invasion_attempts` by exactly one; nothing
else in the state changes — in particular no presence entry, even when
the tag was previously known and is still marked inside. -/
theorem unknown_tag_intrusion_count (s : ReaderState) (tg : String) (now : Int)
    (h : lookupA s.collaborators_cache tg = none) :
    classify_and_update s tg now =
      some (.unknown, { s with session_stats := { s.session_stats with
        invasion_attempts := s.session_stats.invasion_attempts + 1 } }) := by
  simp [classify_and_update, h, handle_unknown_tag]

/-- Witness for C2: a state where the tag is still marked inside but a
refresh removed it from the snapshot — the read is `unknown`, the
intrusion counter steps from 4 to 5, the presence entry is untouched. -/
theorem unknown_tag_intrusion_count_witness :
    lookupA (⟨[], some 0, [("RFID007", ⟨"Eva", 100, true⟩)], ⟨[], 4, []⟩,
        none, none⟩ : ReaderState).collaborators_cache "RFID007" = none ∧
    classify_and_update
        ⟨[], some 0, [("RFID007", ⟨"Eva", 100, true⟩)], ⟨[], 4, []⟩, none, none⟩
        "RFID007" 200 =
      some (.unknown,
        ⟨[], some 0, [("RFID007", ⟨"Eva", 100, true⟩)], ⟨[], 5, []⟩, none, none⟩) :=
  ⟨by decide,
    unknown_tag_intrusion_count
      ⟨[], some 0, [("RFID007", ⟨"Eva", 100, true⟩)], ⟨[], 4, []⟩, none, none⟩
      "RFID007" 200 (by decide)⟩

/-- Claim C3: a read of a tag whose collaborator has `has_access = false`
yields `denied` and bumps `access_attempts[name]` by one; the presence
registry and every other field are left exactly as they were. -/
theorem denied_access_no_presence_change (s : ReaderState) (tg nm : String)
    (now : Int) (h : lookupA s.collaborators_cache tg = some ⟨nm, false⟩) :
    classify_and_update s tg now =
      some (.denied, { s with session_stats := { s.session_stats with
        access_attempts := insertA s.session_stats.access_attempts nm
          ((lookupA s.session_stats.access_attempts nm).getD 0 + 1) } }) ∧
    lookupA (insertA s.session_stats.access_attempts nm
        ((lookupA s.session_stats.access_attempts nm).getD 0 + 1)) nm =
      some ((lookupA s.session_stats.access_attempts nm).getD 0 + 1) := by
  constructor
  · simp [classify_and_update, h, handle_denied_access]
  · exact lookupA_insertA_self _ _ _

/-- Witness for C3: a revoked holder who is still mid-session is denied,
the denied counter for the name steps from 2 to 3, and the inside
presence entry is untouched. -/
theorem denied_access_no_presence_change_witness :
    lookupA (⟨[("RFID003", ⟨"Pedro", false⟩)], some 0,
        [("RFID003", ⟨"Pedro", 10, true⟩)], ⟨[("Pedro", 2)], 0, []⟩,
        none, none⟩ : ReaderState).collaborators_cache "RFID003" =
      some ⟨"Pedro", false⟩ ∧
    classify_and_update
        ⟨[("RFID003", ⟨"Pedro", false⟩)], some 0,
          [("RFID003", ⟨"Pedro", 10, true⟩)], ⟨[("Pedro", 2)], 0, []⟩, none, none⟩
        "RFID003" 50 =
      some (.denied,
        ⟨[("RFID003", ⟨"Pedro", false⟩)], some 0,
          [("RFID003", ⟨"Pedro", 10, true⟩)], ⟨[("Pedro", 3)], 0, []⟩,
          none, none⟩) :=
  ⟨by decide,
    by
      have h := denied_access_no_presence_change
        ⟨[("RFID003", ⟨"Pedro", false⟩)], some 0,
          [("RFID003", ⟨"Pedro", 10, true⟩)], ⟨[("Pedro", 2)], 0, []⟩, none, none⟩
        "RFID003" "Pedro" 50 (by decide)
      simpa using h.1⟩

/-- Claim C4: `update_cache` is atomic on failure — a failed fetch returns
`false` and leaves both the snapshot and its freshness timestamp exactly
as they were, so lookups are unchanged; a successful fetch returns
`true`, replaces the snapshot wholesale and sets the timestamp. -/
theorem update_cache_failure_atomic (fetch : Option Cache) (s : ReaderState)
    (now : Int) (tg : String) :
    (fetch = none →
      update_cache fetch s now = (false, s) ∧
      lookupA ((update_cache fetch s now).2).collaborators_cache tg =
        lookupA s.collaborators_cache tg ∧
      ((update_cache fetch s now).2).cache_last_update = s.cache_last_update) ∧
    (∀ m, fetch = some m →
      update_cache fetch s now =
        (true, { s with collaborators_cache := m,
                        cache_last_update := some now })) := by
  constructor
  · rintro rfl
    exact ⟨rfl, rfl, rfl⟩
  · rintro m rfl
    rfl

/-- Witness for C4: a failed refresh over a one-entry snapshot changes
nothing; a successful refresh replaces it. -/
theorem update_cache_failure_atomic_witness :
    update_cache none
        ⟨[("RFID001", ⟨"Ana", true⟩)], some 7, [], ⟨[], 0, []⟩, none, none⟩ 999 =
      (false,
        ⟨[("RFID001", ⟨"Ana", true⟩)], some 7, [], ⟨[], 0, []⟩, none, none⟩) ∧
    update_cache (some [])
        ⟨[("RFID001", ⟨"Ana", true⟩)], some 7, [], ⟨[], 0, []⟩, none, none⟩ 999 =
      (true, ⟨[], some 999, [], ⟨[], 0, []⟩, none, none⟩) :=
  ⟨((update_cache_failure_atomic none
      ⟨[("RFID001", ⟨"Ana", true⟩)], some 7, [], ⟨[], 0, []⟩, none, none⟩
      999 "RFID001").1 rfl).1,
    by
      have h := (update_cache_failure_atomic (some [])
        ⟨[("RFID001", ⟨"Ana", true⟩)], some 7, [], ⟨[], 0, []⟩, none, none⟩
        999 "RFID001").2 [] rfl
      simpa using h⟩

theorem presence_is_inside_some (s : ReaderState) (tg : String)
    (h : presence_is_inside s tg = true) :
    (lookupA s.presence_control tg).map (·.is_inside) = some true := by
  unfold presence_is_inside at h
  cases hp : lookupA s.presence_control tg with
  | none => rw [hp] at h; simp at h
  | some e =>
      rw [hp] at h
      simp only [Option.map_some', Option.getD_some] at h
      simp [h]

theorem classify_and_update_isSome (s : ReaderState) (tg : String) (now : Int) :
    (classify_and_update s tg now).isSome = true := by
  unfold classify_and_update
  cases hc : lookupA s.collaborators_cache tg with
  | none => rfl
  | some c =>
      by_cases ha : c.has_access
      · by_cases hin : presence_is_inside s tg = true
        · have hmap := presence_is_inside_some s tg hin
          cases hp : lookupA s.presence_control tg with
          | none => rw [hp] at hmap; simp at hmap
          | some e => simp [ha, hin, handle_exit, hp]
        · simp [ha, hin]
      · simp [ha]

/-- Claim C8: the `record_exit` precondition always holds — whenever the
`is_inside` test routes a read to the exit branch, the presence registry
really holds an entry for that tag with `is_inside = true`, so the
unguarded dict accesses of `handle_exit` cannot raise and
`process_rfid_tag` never reaches the contract-violation (`none`)
outcome. -/
theorem exit_branch_never_fails (s : ReaderState) (tg : String) :
    (presence_is_inside s tg = true →
      (lookupA s.presence_control tg).map (·.is_inside) = some true) ∧
    (∀ (fetch : Option Cache) (now : Int),
      (process_rfid_tag fetch s tg now).isSome = true) := by
  refine ⟨presence_is_inside_some s tg, ?_⟩
  intro fetch now
  unfold process_rfid_tag
  exact classify_and_update_isSome _ tg now

/-- Witness for C8: a state whose holder is inside — the `is_inside` test
is backed by a real presence entry and the processing call succeeds. -/
theorem exit_branch_never_fails_witness :
    (lookupA (⟨[("RFID001", ⟨"Ana", true⟩)], some 100,
        [("RFID001", ⟨"Ana", 100, true⟩)], ⟨[], 0, []⟩, none,
        none⟩ : ReaderState).presence_control "RFID001").map (·.is_inside) =
      some true ∧
    (process_rfid_tag none
        ⟨[("RFID001", ⟨"Ana", true⟩)], some 100,
          [("RFID001", ⟨"Ana", 100, true⟩)], ⟨[], 0, []⟩, none, none⟩
        "RFID001" 110).isSome = true :=
  ⟨(exit_branch_never_fails
      ⟨[("RFID001", ⟨"Ana", true⟩)], some 100,
        [("RFID001", ⟨"Ana", 100, true⟩)], ⟨[], 0, []⟩, none, none⟩
      "RFID001").1 (by decide),
    (exit_branch_never_fails
      ⟨[("RFID001", ⟨"Ana", true⟩)], some 100,
        [("RFID001", ⟨"Ana", 100, true⟩)], ⟨[], 0, []⟩, none, none⟩
      "RFID001").2 none 110⟩

/-- Claim C9: the classification logic duplicated between the hardware
reader (`process_rfid_tag`, after its refresh step) and the simulator
(`simulate_read`) is equivalent — from the same cache contents and the
same presence state, both produce the same event kind and the same
updated presence registry, for every tag and time. -/
theorem reader_simulator_agree (cache : Cache)
    (pre : List (String × PresenceEntry)) (clu : Option Int)
    (stats : SessionStats) (lt : Option String) (lrt : Option Int)
    (tg : String) (now : Int) :
    (classify_and_update ⟨cache, clu, pre, stats, lt, lrt⟩ tg now).map
        (fun p => (p.1, p.2.presence_control)) =
      (simulate_read ⟨cache, pre⟩ tg now).map
        (fun p => (p.1, p.2.presence_control)) := by
  cases hc : lookupA cache tg with
  | none => simp [classify_and_update, simulate_read, hc, handle_unknown_tag]
  | some c =>
      by_cases ha : c.has_access = true
      · by_cases hin : (((lookupA pre tg).map (·.is_inside)).getD false) = true
        · cases hp : lookupA pre tg with
          | none => rw [hp] at hin; simp at hin
          | some e =>
              rw [hp] at hin
              simp only [Option.map_some', Option.getD_some] at hin
              simp [classify_and_update, simulate_read, hc, ha,
                presence_is_inside, hp, hin, handle_exit]
        · simp [classify_and_update, simulate_read, hc, ha,
            presence_is_inside, hin, handle_entry]
      · simp [classify_and_update, simulate_read, hc, ha,
          handle_denied_access]

/-- Counterexample for C5: the claim says that for every pair of reads of
the same tag within the window the second is dropped.  Reads `A` at 100,
`B` at 101, `A` at 102: the two `A` reads are 2 s apart (inside the 3 s
window), yet all three reads emit an event — the intervening allowed
read of `B` overwrote the single retained `(last_tag, last_read_time)`
pair. -/
theorem debounce_intervening_tag_cex :
    ((102 : Int) - 100 < DEBOUNCE_TIME) ∧
    (run_multi none ⟨[], some 100, [], ⟨[], 0, []⟩, none, none⟩
        [("A", 100), ("B", 101), ("A", 102)]).map
      (fun p => p.1.map Option.isSome) = some [true, true, true] :=
  ⟨by decide, by decide⟩

/-- Claim C5 (amended): the filter retains only the single most recent
allowed `(tag, time)` pair.  A read is suppressed (no event, no state
mutation) iff the most recently allowed read was of the same tag at a
nonzero time `t0` with `now - t0 < window`; hence a read of one tag is
never suppressed because of an intervening read of a different tag, but
an intervening allowed read of a different tag resets the filter, so a
same-tag pair inside the window is only dropped when no other tag was
read in between. -/
theorem debounce_single_slot_iff (fetch : Option Cache) (s : ReaderState)
    (tg : String) (now : Int) :
    (debounce_suppress s tg now = true ↔
      (s.last_tag = some tg ∧
        ∃ t0, s.last_read_time = some t0 ∧ t0 ≠ 0 ∧
          now - t0 < DEBOUNCE_TIME)) ∧
    (debounce_suppress s tg now = true →
      run_step fetch s tg now = some (none, s)) := by
  constructor
  · unfold debounce_suppress
    cases hlt : s.last_tag with
    | none => cases hlrt : s.last_read_time <;> simp
    | some lt =>
        cases hlrt : s.last_read_time with
        | none => simp
        | some t0 =>
            simp only [Bool.and_eq_true, decide_eq_true_eq, Bool.not_eq_true',
              decide_eq_false_iff_not, Option.some.injEq]
            constructor
            · rintro ⟨⟨h1, h2⟩, h3⟩
              exact ⟨h1, t0, rfl, h2, h3⟩
            · rintro ⟨h1, t1, ht, h2, h3⟩
              cases ht
              exact ⟨⟨h1, h2⟩, h3⟩
  · intro h
    simp [run_step, h]

/-- Witness for C5 (amended): the last allowed read was `A` at 100; a
second `A` read at 101 is suppressed and mutates nothing. -/
theorem debounce_single_slot_iff_witness :
    debounce_suppress ⟨[], some 0, [], ⟨[], 0, []⟩, some "A", some 100⟩
        "A" 101 = true ∧
    run_step none ⟨[], some 0, [], ⟨[], 0, []⟩, some "A", some 100⟩ "A" 101 =
      some (none, ⟨[], some 0, [], ⟨[], 0, []⟩, some "A", some 100⟩) :=
  ⟨by decide,
    (debounce_single_slot_iff none
      ⟨[], some 0, [], ⟨[], 0, []⟩, some "A", some 100⟩ "A" 101).2 (by decide)⟩

/-- Counterexample for C6: the claim says a read arriving with an expired
TTL triggers a refresh attempt even if the read is then debounced.
State: snapshot timestamp 0 (TTL of 300 s long expired), last read of
`RFID001` at 400; a new `RFID001` read at 401 is debounced and the state
comes back entirely unchanged — `cache_last_update` is still `some 0`
and the cache still empty, although the supplied fetch would have
succeeded. -/
theorem refresh_skipped_when_debounced_cex :
    should_refresh_cache
        ⟨[], some 0, [], ⟨[], 0, []⟩, some "RFID001", some 400⟩ 401 = true ∧
    run_step (some [("RFID001", ⟨"Ana", true⟩)])
        ⟨[], some 0, [], ⟨[], 0, []⟩, some "RFID001", some 400⟩ "RFID001" 401 =
      some (none, ⟨[], some 0, [], ⟨[], 0, []⟩, some "RFID001", some 400⟩) :=
  ⟨by decide, by decide⟩

/-- Claim C6 (amended): the per-read steps run in the opposite order to
the one claimed — the debounce filter is applied first, and a suppressed
read returns immediately with no event and no state change, performing
no refresh attempt even when the TTL has expired; only a read that
passes the filter enters `process_rfid_tag`, which attempts the TTL
refresh before classifying. -/
theorem debounce_before_refresh (fetch : Option Cache) (s : ReaderState)
    (tg : String) (now : Int) :
    (debounce_suppress s tg now = true →
      run_step fetch s tg now = some (none, s)) ∧
    (debounce_suppress s tg now = false →
      run_step fetch s tg now =
        (process_rfid_tag fetch
            { s with last_tag := some tg, last_read_time := some now }
            tg now).map
          (fun p => (some p.1, p.2))) ∧
    process_rfid_tag fetch s tg now =
      classify_and_update
        (if should_refresh_cache s now then (update_cache fetch s now).2 else s)
        tg now := by
  refine ⟨fun h => ?_, fun h => ?_, rfl⟩
  · simp [run_step, h]
  · simp [run_step, h]

/-- Witness for C6 (amended): one suppressed read (stale TTL, no refresh,
state unchanged) and one passing read (which goes through
`process_rfid_tag`). -/
theorem debounce_before_refresh_witness :
    run_step none ⟨[], some 0, [], ⟨[], 0, []⟩, some "A", some 100⟩ "A" 101 =
      some (none, ⟨[], some 0, [], ⟨[], 0, []⟩, some "A", some 100⟩) ∧
    run_step none ⟨[], some 0, [], ⟨[], 0, []⟩, some "A", some 100⟩ "A" 500 =
      (process_rfid_tag none ⟨[], some 0, [], ⟨[], 0, []⟩, some "A", some 500⟩
          "A" 500).map
        (fun p => (some p.1, p.2)) :=
  ⟨(debounce_before_refresh none
      ⟨[], some 0, [], ⟨[], 0, []⟩, some "A", some 100⟩ "A" 101).1 (by decide),
    (debounce_before_refresh none
      ⟨[], some 0, [], ⟨[], 0, []⟩, some "A", some 100⟩ "A" 500).2.1 (by decide)⟩

/-- Claim C7: on every exit the credited session duration is exactly
`exit_at - entry_at` of the current stay, accumulated into
`time_in_room[name]`; concretely, entry at 100, a debounced read at 101,
and an exit at 110 credit exactly 10 seconds. -/
theorem exit_duration_exact :
    (∀ (s : ReaderState) (tg nm : String) (e : PresenceEntry) (now : Int),
      lookupA s.collaborators_cache tg = some ⟨nm, true⟩ →
      lookupA s.presence_control tg = some e →
      e.is_inside = true →
      (classify_and_update s tg now).map
          (fun p => (p.1, (lookupA p.2.session_stats.time_in_room nm).getD 0)) =
        some (.exit,
          (lookupA s.session_stats.time_in_room nm).getD 0 +
            (now - e.entry_time))) ∧
    (run_multi none
        ⟨[("RFID001", ⟨"Ana", true⟩)], some 100, [], ⟨[], 0, []⟩, none, none⟩
        [("RFID001", 100), ("RFID001", 101), ("RFID001", 110)]).map
      (fun p => (p.1, lookupA p.2.session_stats.time_in_room "Ana")) =
      some ([some .entry, none, some .exit], some 10) := by
  constructor
  · intro s tg nm e now hc hp hin
    have hinb : presence_is_inside s tg = true := by
      simp [presence_is_inside, hp, hin]
    simp [classify_and_update, hc, hinb, handle_exit, hp, lookupA_insertA_self]
  · decide

/-- Witness for C7: the state just after Ana's entry at 100; the exit read
at 110 credits exactly 10 seconds. -/
theorem exit_duration_exact_witness :
    lookupA (⟨[("RFID001", ⟨"Ana", true⟩)], some 100,
        [("RFID001", ⟨"Ana", 100, true⟩)], ⟨[], 0, []⟩, some "RFID001",
        some 100⟩ : ReaderState).collaborators_cache "RFID001" =
      some ⟨"Ana", true⟩ ∧
    (classify_and_update
        ⟨[("RFID001", ⟨"Ana", true⟩)], some 100,
          [("RFID001", ⟨"Ana", 100, true⟩)], ⟨[], 0, []⟩, some "RFID001",
          some 100⟩ "RFID001" 110).map
        (fun p => (p.1, (lookupA p.2.session_stats.time_in_room "Ana").getD 0)) =
      some (.exit, 10) :=
  ⟨by decide,
    (exit_duration_exact.1
      ⟨[("RFID001", ⟨"Ana", true⟩)], some 100,
        [("RFID001", ⟨"Ana", 100, true⟩)], ⟨[], 0, []⟩, some "RFID001",
        some 100⟩
      "RFID001" "Ana" ⟨"Ana", 100, true⟩ 110 (by decide) (by decide)
      rfl).trans (by decide)⟩

/-- Pointwise monotonicity of the session statistics: the intrusion
counter, every per-name denied count and every per-name room time are
non-decreasing, and no key disappears from either mapping. -/
def statsMono (a b : SessionStats) : Prop :=
  a.invasion_attempts ≤ b.invasion_attempts ∧
  (∀ nm, (lookupA a.access_attempts nm).getD 0 ≤
    (lookupA b.access_attempts nm).getD 0) ∧
  (∀ nm, (lookupA a.access_attempts nm).isSome = true →
    (lookupA b.access_attempts nm).isSome = true) ∧
  (∀ nm, (lookupA a.time_in_room nm).getD 0 ≤
    (lookupA b.time_in_room nm).getD 0) ∧
  (∀ nm, (lookupA a.time_in_room nm).isSome = true →
    (lookupA b.time_in_room nm).isSome = true)

theorem statsMono_refl (a : SessionStats) : statsMono a a :=
  ⟨le_refl _, fun _ => le_refl _, fun _ h => h, fun _ => le_refl _,
    fun _ h => h⟩

theorem statsMono_classify (s : ReaderState) (tg : String) (now : Int)
    (hclock : entry_before s tg now = true) (p : EventKind × ReaderState)
    (h : classify_and_update s tg now = some p) :
    statsMono s.session_stats p.2.session_stats := by
  unfold classify_and_update at h
  cases hc : lookupA s.collaborators_cache tg with
  | none =>
      rw [hc] at h
      cases h
      exact ⟨Nat.le_succ _, fun _ => le_refl _, fun _ hh => hh,
        fun _ => le_refl _, fun _ hh => hh⟩
  | some c =>
      rw [hc] at h
      cases hac : c.has_access with
      | false =>
          simp only [hac, Bool.not_false, if_true] at h
          cases h
          refine ⟨le_refl _, ?_, ?_, fun _ => le_refl _, fun _ hh => hh⟩
          · intro nm
            exact getD_lookupA_insertA_le _ c.name nm _ 0 (Nat.le_succ _)
          · intro nm hh
            exact isSome_lookupA_insertA _ c.name nm _ hh
      | true =>
          simp only [hac, Bool.not_true, if_false] at h
          by_cases hin : presence_is_inside s tg = true
          · rw [if_pos hin] at h
            have hmap := presence_is_inside_some s tg hin
            cases hpl : lookupA s.presence_control tg with
            | none => rw [hpl] at hmap; simp at hmap
            | some e =>
                unfold handle_exit at h
                rw [hpl] at h
                simp only [Option.map_some'] at h
                cases h
                have hd : (0 : Int) ≤ now - e.entry_time := by
                  unfold entry_before at hclock
                  rw [hpl] at hclock
                  simp only [decide_eq_true_eq] at hclock
                  omega
                refine ⟨le_refl _, fun _ => le_refl _, fun _ hh => hh, ?_, ?_⟩
                · intro nm
                  exact getD_lookupA_insertA_le _ c.name nm _ 0
                    (le_add_of_nonneg_right hd)
                · intro nm hh
                  exact isSome_lookupA_insertA _ c.name nm _ hh
          · rw [if_neg hin] at h
            cases h
            exact statsMono_refl _

theorem process_state_core (fetch : Option Cache) (s : ReaderState)
    (tg : String) (now : Int) :
    ∃ s2 : ReaderState,
      process_rfid_tag fetch s tg now = classify_and_update s2 tg now ∧
      s2.session_stats = s.session_stats ∧
      s2.presence_control = s.presence_control := by
  unfold process_rfid_tag
  cases hb : should_refresh_cache s now with
  | false => exact ⟨s, by simp [hb], rfl, rfl⟩
  | true =>
      cases fetch with
      | none => exact ⟨s, by simp [hb, update_cache], rfl, rfl⟩
      | some m =>
          exact ⟨{ s with collaborators_cache := m,
                          cache_last_update := some now },
            by simp [hb, update_cache], rfl, rfl⟩

theorem entry_before_congr (s s' : ReaderState) (tg : String) (now : Int)
    (h : s'.presence_control = s.presence_control) :
    entry_before s' tg now = entry_before s tg now := by
  unfold entry_before
  rw [h]

/-- Claim C10: session statistics only accumulate — provided the wall
clock did not run backwards past the recorded entry time of the tag
being read, no engine step decreases `invasion_attempts`, any per-name
count in `access_attempts`, or any per-name total in `time_in_room`, and
no key is ever removed from either mapping. -/
theorem stats_monotone (fetch : Option Cache) (s : ReaderState) (tg : String)
    (now : Int) (hclock : entry_before s tg now = true)
    (r : Option EventKind × ReaderState)
    (hr : run_step fetch s tg now = some r) :
    statsMono s.session_stats r.2.session_stats := by
  unfold run_step at hr
  cases hd : debounce_suppress s tg now with
  | true =>
      rw [hd] at hr
      simp only [if_true, Option.some.injEq] at hr
      rw [← hr]
      exact statsMono_refl _
  | false =>
      rw [hd] at hr
      simp only [Bool.false_eq_true, if_false] at hr
      rw [Option.map_eq_some'] at hr
      obtain ⟨a, ha1, ha2⟩ := hr
      obtain ⟨s2, hpe, hss, hpp⟩ := process_state_core fetch
        { s with last_tag := some tg, last_read_time := some now } tg now
      rw [hpe] at ha1
      have hclock2 : entry_before s2 tg now = true := by
        rw [entry_before_congr s s2 tg now hpp]
        exact hclock
      have hmono := statsMono_classify s2 tg now hclock2 a ha1
      rw [hss] at hmono
      rw [← ha2]
      exact hmono

/-- Witness for C10: Ana entered at 50 and exits at 200 — the denied map,
the intrusion counter and the room-time map all only grow. -/
theorem stats_monotone_witness :
    entry_before
        ⟨[("RFID001", ⟨"Ana", true⟩)], some 100,
          [("RFID001", ⟨"Ana", 50, true⟩)], ⟨[("Bob", 2)], 1, [("Ana", 5)]⟩,
          none, none⟩ "RFID001" 200 = true ∧
    statsMono ⟨[("Bob", 2)], 1, [("Ana", 5)]⟩
      ⟨[("Bob", 2)], 1, [("Ana", 155)]⟩ :=
  ⟨by decide,
    stats_monotone none
      ⟨[("RFID001", ⟨"Ana", true⟩)], some 100,
        [("RFID001", ⟨"Ana", 50, true⟩)], ⟨[("Bob", 2)], 1, [("Ana", 5)]⟩,
        none, none⟩
      "RFID001" 200 (by decide)
      (some .exit,
        ⟨[("RFID001", ⟨"Ana", true⟩)], some 100,
          [("RFID001", ⟨"Ana", 50, false⟩)], ⟨[("Bob", 2)], 1, [("Ana", 155)]⟩,
          some "RFID001", some 200⟩)
      (by decide)⟩

theorem process_none_eq (s : ReaderState) (tg : String) (now : Int) :
    process_rfid_tag none s tg now = classify_and_update s tg now := by
  unfold process_rfid_tag
  cases hb : should_refresh_cache s now <;> simp [hb, update_cache]

theorem no_suppress_of_gap (s : ReaderState) (tg : String) (t : Int)
    (h : ∀ t0, s.last_read_time = some t0 → t0 + DEBOUNCE_TIME ≤ t) :
    debounce_suppress s tg t = false := by
  unfold debounce_suppress
  cases hlt : s.last_tag with
  | none => cases s.last_read_time <;> rfl
  | some lt =>
      cases hlrt : s.last_read_time with
      | none => rfl
      | some t0 =>
          have hgap := h t0 hlrt
          have h3 : ¬(t - t0 < DEBOUNCE_TIME) := by
            unfold DEBOUNCE_TIME at hgap ⊢
            omega
          simp [h3]

theorem classify_entry_eq (s : ReaderState) (tg nm : String) (now : Int)
    (hc : lookupA s.collaborators_cache tg = some ⟨nm, true⟩)
    (hp : presence_is_inside s tg = false) :
    classify_and_update s tg now = some (.entry, handle_entry s tg nm now) := by
  simp [classify_and_update, hc, hp]

theorem classify_exit_eq (s : ReaderState) (tg nm : String) (now : Int)
    (e : PresenceEntry)
    (hc : lookupA s.collaborators_cache tg = some ⟨nm, true⟩)
    (hp : lookupA s.presence_control tg = some e)
    (hin : e.is_inside = true) :
    classify_and_update s tg now =
      some (.exit, { s with
        session_stats := { s.session_stats with
          time_in_room := insertA s.session_stats.time_in_room nm
            ((lookupA s.session_stats.time_in_room nm).getD 0 +
              (now - e.entry_time)) },
        presence_control :=
          insertA s.presence_control tg { e with is_inside := false } }) := by
  have hinb : presence_is_inside s tg = true := by
    simp [presence_is_inside, hp, hin]
  simp [classify_and_update, hc, hinb, handle_exit, hp]

theorem run_seq_cons {fetch : Option Cache} {tg : String}
    {s s1 s2 : ReaderState} {t : Int} {ts : List Int} {ev : Option EventKind}
    {ks : List EventKind}
    (h1 : run_step fetch s tg t = some (ev, s1))
    (h2 : run_seq fetch tg s1 ts = some (ks, s2)) :
    run_seq fetch tg s (t :: ts) = some (ev.toList ++ ks, s2) := by
  simp only [run_seq, h1]
  simp only [h2]

theorem run_seq_alt_aux (tg nm : String) (ts : List Int) :
    ∀ (s : ReaderState) (b : Bool),
      lookupA s.collaborators_cache tg = some ⟨nm, true⟩ →
      presence_is_inside s tg = b →
      spaced3 s.last_read_time ts = true →
      ∃ s', run_seq none tg s ts = some (altKinds b ts.length, s') := by
  induction ts with
  | nil =>
      intro s b _ _ _
      cases b <;> exact ⟨s, rfl⟩
  | cons t ts ih =>
      intro s b hc hp hsp
      have hrest : spaced3 (some t) ts = true := by
        cases hlrt : s.last_read_time with
        | none => rw [hlrt] at hsp; exact hsp
        | some t0 =>
            rw [hlrt] at hsp
            unfold spaced3 at hsp
            simp only [Bool.and_eq_true] at hsp
            exact hsp.2
      have hgap : ∀ t0, s.last_read_time = some t0 →
          t0 + DEBOUNCE_TIME ≤ t := by
        intro t0 h0
        rw [h0] at hsp
        unfold spaced3 at hsp
        simp only [Bool.and_eq_true, decide_eq_true_eq] at hsp
        exact hsp.1
      have hns : debounce_suppress s tg t = false := no_suppress_of_gap s tg t hgap
      cases b with
      | false =>
          have hcl := classify_entry_eq
            { s with last_tag := some tg, last_read_time := some t } tg nm t hc hp
          have hstep : run_step none s tg t =
              some (some .entry,
                handle_entry
                  { s with last_tag := some tg, last_read_time := some t }
                  tg nm t) := by
            unfold run_step
            rw [hns]
            simp only [Bool.false_eq_true, if_false, process_none_eq, hcl,
              Option.map_some']
          have hp2 : presence_is_inside
              (handle_entry
                { s with last_tag := some tg, last_read_time := some t }
                tg nm t) tg = true := by
            simp [presence_is_inside, handle_entry, lookupA_insertA_self]
          obtain ⟨s', hrun⟩ := ih
            (handle_entry
              { s with last_tag := some tg, last_read_time := some t }
              tg nm t) true hc hp2 hrest
          exact ⟨s', run_seq_cons hstep hrun⟩
      | true =>
          have hmap := presence_is_inside_some s tg hp
          cases hpl : lookupA s.presence_control tg with
          | none => rw [hpl] at hmap; simp at hmap
          | some e =>
              rw [hpl] at hmap
              simp only [Option.map_some', Option.some.injEq] at hmap
              have hcl := classify_exit_eq
                { s with last_tag := some tg, last_read_time := some t }
                tg nm t e hc hpl hmap
              have hstep : run_step none s tg t =
                  some (some .exit,
                    { s with
                      session_stats := { s.session_stats with
                        time_in_room := insertA s.session_stats.time_in_room nm
                          ((lookupA s.session_stats.time_in_room nm).getD 0 +
                            (t - e.entry_time)) },
                      presence_control := insertA s.presence_control tg
                        { e with is_inside := false },
                      last_tag := some tg, last_read_time := some t }) := by
                unfold run_step
                rw [hns]
                simp only [Bool.false_eq_true, if_false, process_none_eq, hcl,
                  Option.map_some']
              have hp2 : presence_is_inside
                  { s with
                    session_stats := { s.session_stats with
                      time_in_room := insertA s.session_stats.time_in_room nm
                        ((lookupA s.session_stats.time_in_room nm).getD 0 +
                          (t - e.entry_time)) },
                    presence_control := insertA s.presence_control tg
                      { e with is_inside := false },
                    last_tag := some tg, last_read_time := some t } tg = false := by
                simp [presence_is_inside, lookupA_insertA_self]
              obtain ⟨s', hrun⟩ := ih
                { s with
                  session_stats := { s.session_stats with
                    time_in_room := insertA s.session_stats.time_in_room nm
                      ((lookupA s.session_stats.time_in_room nm).getD 0 +
                        (t - e.entry_time)) },
                  presence_control := insertA s.presence_control tg
                    { e with is_inside := false },
                  last_tag := some tg, last_read_time := some t }
                false hc hp2 hrest
              exact ⟨s', run_seq_cons hstep hrun⟩

/-- Claim C1: a tag present in the cache with access strictly alternates
entry, exit, entry, exit, … over any sequence of reads spaced at least
the debounce window apart (with no successful refresh in between),
starting from entry on the first-ever read; a read while inside is
always an exit regardless of elapsed time, and no other kind occurs. -/
theorem entry_exit_alternation (s : ReaderState) (tg nm : String)
    (ts : List Int)
    (hc : lookupA s.collaborators_cache tg = some ⟨nm, true⟩)
    (hfirst : lookupA s.presence_control tg = none)
    (hsp : spaced3 s.last_read_time ts = true) :
    ∃ s', run_seq none tg s ts = some (altKinds false ts.length, s') := by
  have hp : presence_is_inside s tg = false := by
    simp [presence_is_inside, hfirst]
  exact run_seq_alt_aux tg nm ts s false hc hp hsp

/-- Witness for C1: Ana's tag read three times at 100, 110, 120 produces
entry, exit, entry. -/
theorem entry_exit_alternation_witness :
    spaced3 (⟨[("RFID001", ⟨"Ana", true⟩)], some 50, [], ⟨[], 0, []⟩, none,
        none⟩ : ReaderState).last_read_time [100, 110, 120] = true ∧
    ∃ s', run_seq none "RFID001"
        ⟨[("RFID001", ⟨"Ana", true⟩)], some 50, [], ⟨[], 0, []⟩, none, none⟩
        [100, 110, 120] = some ([.entry, .exit, .entry], s') :=
  ⟨by decide,
    entry_exit_alternation
      ⟨[("RFID001", ⟨"Ana", true⟩)], some 50, [], ⟨[], 0, []⟩, none, none⟩
      "RFID001" "Ana" [100, 110, 120] (by decide) (by decide) (by decide)⟩

end RFIDModel
